import Mathlib

/-!
Shallow embedding of the rosette-drawing repository (task1/draw_figure.py,
task1/program.py, task2/gen_program.py).

The pen surface (Python `turtle.Turtle`) is modelled as an explicit state
record carrying the observable pose (position, heading in degrees normalised
to `[0, 360)`, pen-down flag), the pen style (colour, width), the visibility
flag, and a trace of every primitive command issued to the surface.  The
geometric effect of `forward` and `circle` on the position is abstracted into
a `Geom` parameter: all theorems hold for every geometry, in particular the
real trigonometric one.  Coordinates and angles are rationals (the idealised
exact-real reading of the Python floats).
-/

namespace Rosette

/-- RGB colour triple, channels as integers (Python `Tuple[int, int, int]`). -/
abbrev RGBColor := ℤ × ℤ × ℤ

/-- A point on the canvas. -/
abbrev Point := ℚ × ℚ

/-- One primitive command issued to the pen surface, recording the arguments
exactly as the source passes them. -/
inductive Cmd where
  | penup : Cmd
  | pendown : Cmd
  | goto : Point → Cmd
  | setheading : ℚ → Cmd
  | forward : ℚ → Cmd
  | left : ℚ → Cmd
  | circle : ℚ → ℚ → Cmd
  | pensize : ℤ → Cmd
  | pencolor : RGBColor → Cmd
  | hideturtle : Cmd
deriving DecidableEq, Repr

/-- Abstract geometry of the motion primitives: how `forward` and `circle`
move the position, given the current position and heading.  The drawing code
never inspects the position it is moved to, so every theorem below is proved
for an arbitrary geometry, covering the real trigonometric one. -/
structure Geom where
  fwd : Point → ℚ → ℚ → Point
  arc : Point → ℚ → ℚ → ℚ → Point

/-- Normalise an angle in degrees into `[0, 360)`, as the turtle's observable
`heading()` does. -/
def normAngle (a : ℚ) : ℚ := a - 360 * ⌊a / 360⌋

/-- Observable state of the pen surface. -/
structure TurtleState where
  pos : Point
  heading : ℚ
  penDown : Bool
  penColor : RGBColor
  penSize : ℤ
  visible : Bool
  trace : List Cmd
deriving DecidableEq, Repr

namespace TurtleState

/-- `t.penup()`. -/
def penup (s : TurtleState) : TurtleState :=
  { s with penDown := false, trace := s.trace ++ [Cmd.penup] }

/-- `t.pendown()`. -/
def pendown (s : TurtleState) : TurtleState :=
  { s with penDown := true, trace := s.trace ++ [Cmd.pendown] }

/-- `t.goto(p)`. -/
def goto (p : Point) (s : TurtleState) : TurtleState :=
  { s with pos := p, trace := s.trace ++ [Cmd.goto p] }

/-- `t.setheading(a)`: the stored heading is the observable, normalised one. -/
def setheading (a : ℚ) (s : TurtleState) : TurtleState :=
  { s with heading := normAngle a, trace := s.trace ++ [Cmd.setheading a] }

/-- `t.left(a)`. -/
def left (a : ℚ) (s : TurtleState) : TurtleState :=
  { s with heading := normAngle (s.heading + a), trace := s.trace ++ [Cmd.left a] }

/-- `t.forward(d)`: moves the position along the current heading. -/
def forward (g : Geom) (d : ℚ) (s : TurtleState) : TurtleState :=
  { s with pos := g.fwd s.pos s.heading d, trace := s.trace ++ [Cmd.forward d] }

/-- `t.circle(r, ext)`: draws an arc; for positive radius the turtle turns
counterclockwise by `ext` degrees while the position follows the arc. -/
def circle (g : Geom) (r ext : ℚ) (s : TurtleState) : TurtleState :=
  { s with pos := g.arc s.pos s.heading r ext,
           heading := normAngle (s.heading + ext),
           trace := s.trace ++ [Cmd.circle r ext] }

/-- `t.pensize(w)`. -/
def pensize (w : ℤ) (s : TurtleState) : TurtleState :=
  { s with penSize := w, trace := s.trace ++ [Cmd.pensize w] }

/-- `t.pencolor(*c)`. -/
def pencolor (c : RGBColor) (s : TurtleState) : TurtleState :=
  { s with penColor := c, trace := s.trace ++ [Cmd.pencolor c] }

/-- `t.hideturtle()`. -/
def hideturtle (s : TurtleState) : TurtleState :=
  { s with visible := false, trace := s.trace ++ [Cmd.hideturtle] }

end TurtleState

open TurtleState

/-- `_draw_petal(turtle_instance, size)` from `task1/draw_figure.py`: captures
the entry pose, draws the two mirrored arcs, and restores the entry pose. -/
def draw_petal (g : Geom) (size : ℤ) (s : TurtleState) : TurtleState :=
  let start_position := s.pos
  let start_heading := s.heading
  let was_down := s.penDown
  let s := penup s
  let s := forward g (size : ℚ) s
  let s := pendown s
  let s := left 60 s
  let s := circle g (size : ℚ) 120 s
  let s := left 120 s
  let s := circle g (size : ℚ) 120 s
  let s := penup s
  let s := goto start_position s
  let s := setheading start_heading s
  if was_down then pendown s else s

/-- `draw(t, *, base_elements, size, color, line_width, position)` from
`task1/draw_figure.py`.  An exception (`ValueError`) is modelled as
`Except.error`, carrying the error message together with the surface state at
the moment of the raise. -/
def draw (g : Geom) (base_elements : ℤ) (size : ℤ) (color : RGBColor)
    (line_width : ℤ) (position : Point) (s : TurtleState) :
    Except (String × TurtleState) TurtleState :=
  if ¬ (3 ≤ base_elements ∧ base_elements ≤ 15) then
    Except.error ("Parameter base_elements must be in range 3..15.", s)
  else if ¬ (1 ≤ line_width ∧ line_width ≤ 5) then
    Except.error ("Parameter line_width must be in range 1..5.", s)
  else
    let original_state := (s.penDown, s.pos, s.heading)
    let s := penup s
    let s := goto position s
    let s := pendown s
    let s := pensize line_width s
    let s := pencolor color s
    let rotation_angle : ℚ := 360 / (base_elements : ℚ)
    let s := (List.range base_elements.toNat).foldl
      (fun (st : TurtleState) (index : ℕ) =>
        draw_petal g size (setheading (rotation_angle * (index : ℚ)) st)) s
    let s := hideturtle s
    let was_down := original_state.1
    let original_position := original_state.2.1
    let original_heading := original_state.2.2
    let s := penup s
    let s := goto original_position s
    let s := setheading original_heading s
    Except.ok (if was_down then pendown s else s)

/-! ## task2/gen_program.py: the randomized parameter sampler -/

/-- `BASE_ELEMENTS_RANGE` from `task2/gen_program.py`. -/
def BASE_ELEMENTS_RANGE : ℤ × ℤ := (3, 15)

/-- `LINE_WIDTH_RANGE` from `task2/gen_program.py`. -/
def LINE_WIDTH_RANGE : ℤ × ℤ := (1, 5)

/-- `SIZE_RANGE` from `task2/gen_program.py`. -/
def SIZE_RANGE : ℤ × ℤ := (80, 180)

/-- `POSITION_LIMIT_X` from `task2/gen_program.py`. -/
def POSITION_LIMIT_X : ℤ := 450

/-- `POSITION_LIMIT_Y` from `task2/gen_program.py`. -/
def POSITION_LIMIT_Y : ℤ := 300

/-- Model of Python's `random.Random` instance: an infinite stream of raw
entropy values together with a cursor.  Each `randint` call consumes one
stream value and advances the cursor; this captures the library's contract
(each `randint(a, b)` returns a value in `[a, b]` and the sequence of draws
is a deterministic function of the underlying state) without reimplementing
the Mersenne Twister, which lives outside this repository. -/
structure RNG where
  stream : ℕ → ℕ
  cursor : ℕ

namespace RNG

/-- `rng.randint(a, b)`: returns a value in `[a, b]` (for `a ≤ b`) drawn from
the stream, and the advanced generator. -/
def randint (a b : ℤ) (r : RNG) : ℤ × RNG :=
  (a + (r.stream r.cursor : ℤ) % (b - a + 1), { r with cursor := r.cursor + 1 })

/-- Two generators are observably equivalent when their remaining streams
agree from their cursors on. -/
def EquivFrom (r₁ r₂ : RNG) : Prop :=
  ∀ n : ℕ, r₁.stream (r₁.cursor + n) = r₂.stream (r₂.cursor + n)

end RNG

/-- The record returned by `generate_parameters` (the dict of drawing
parameters for one composition). -/
structure CompositionParams where
  base_elements : ℤ
  size : ℤ
  color : RGBColor
  line_width : ℤ
  position : ℤ × ℤ
deriving DecidableEq, Repr

/-- `generate_parameters(rng)` from `task2/gen_program.py`, returning the
sampled parameters together with the advanced generator. -/
def generate_parameters (rng : RNG) : CompositionParams × RNG :=
  let (base_elements, rng) := rng.randint BASE_ELEMENTS_RANGE.1 BASE_ELEMENTS_RANGE.2
  let (size, rng) := rng.randint SIZE_RANGE.1 SIZE_RANGE.2
  let (c1, rng) := rng.randint 0 255
  let (c2, rng) := rng.randint 0 255
  let (c3, rng) := rng.randint 0 255
  let (line_width, rng) := rng.randint LINE_WIDTH_RANGE.1 LINE_WIDTH_RANGE.2
  let max_x := max (POSITION_LIMIT_X - size) 0
  let max_y := max (POSITION_LIMIT_Y - size) 0
  let (px, rng) := rng.randint (-max_x) max_x
  let (py, rng) := rng.randint (-max_y) max_y
  (⟨base_elements, size, (c1, c2, c3), line_width, (px, py)⟩, rng)

/-- The sequence of parameter sets sampled by `main`'s loop in
`task2/gen_program.py`: `count` consecutive calls to `generate_parameters`
threading the single generator through (`rng` is the only state the sampler
touches). -/
def sampleSeq (rng : RNG) : ℕ → List CompositionParams
  | 0 => []
  | n + 1 =>
    let (p, rng') := generate_parameters rng
    p :: sampleSeq rng' n

/-! ## Process-wide colour-mode initialisation (`ensure_colormode_255`) -/

/-- `COLOR_MODE` from both driver scripts. -/
def COLOR_MODE : ℤ := 255

/-- Process-wide configuration state touched by `ensure_colormode_255`: the
module-level `_COLOR_MODE_SET` flag and the turtle module's colour mode. -/
structure ProcState where
  colorModeSet : Bool
  colormode : ℤ
deriving DecidableEq, Repr

/-- `ensure_colormode_255()` from `task1/program.py` / `task2/gen_program.py`:
if the flag is unset, set the turtle colour mode to `COLOR_MODE` and raise the
flag; otherwise do nothing. -/
def ensure_colormode_255 (s : ProcState) : ProcState :=
  if ¬ s.colorModeSet then { colorModeSet := true, colormode := COLOR_MODE } else s

/-! ## Helper lemmas -/

theorem normAngle_nonneg (a : ℚ) : 0 ≤ normAngle a := by
  have h : (360 : ℚ) * ⌊a / 360⌋ ≤ 360 * (a / 360) :=
    mul_le_mul_of_nonneg_left (Int.floor_le (a / 360)) (by norm_num)
  have h2 : (360 : ℚ) * (a / 360) = a := by ring
  unfold normAngle
  linarith

theorem normAngle_lt (a : ℚ) : normAngle a < 360 := by
  have h : (360 : ℚ) * (a / 360) < 360 * (⌊a / 360⌋ + 1) :=
    mul_lt_mul_of_pos_left (Int.lt_floor_add_one (a / 360)) (by norm_num)
  have h2 : (360 : ℚ) * (a / 360) = a := by ring
  unfold normAngle
  linarith

theorem normAngle_eq_self (a : ℚ) (h0 : 0 ≤ a) (h1 : a < 360) : normAngle a = a := by
  have hfl : ⌊a / 360⌋ = 0 := by
    rw [Int.floor_eq_zero_iff]
    exact ⟨div_nonneg h0 (by norm_num), (div_lt_one (by norm_num)).2 h1⟩
  unfold normAngle
  rw [hfl]
  push_cast
  ring

/-- Full characterisation of `draw_petal`: the exact command sequence it
issues and the resulting state (entry pose restored, heading normalised). -/
theorem draw_petal_spec (g : Geom) (size : ℤ) (s : TurtleState) :
    draw_petal g size s =
      { pos := s.pos,
        heading := normAngle s.heading,
        penDown := s.penDown,
        penColor := s.penColor,
        penSize := s.penSize,
        visible := s.visible,
        trace := s.trace ++
          [Cmd.penup, Cmd.forward (size : ℚ), Cmd.pendown, Cmd.left 60,
           Cmd.circle (size : ℚ) 120, Cmd.left 120, Cmd.circle (size : ℚ) 120,
           Cmd.penup, Cmd.goto s.pos, Cmd.setheading s.heading] ++
          (if s.penDown then [Cmd.pendown] else []) } := by
  unfold draw_petal
  cases hpd : s.penDown <;>
    simp [penup, pendown, goto, setheading, left, forward, TurtleState.circle, hpd]

/-- The command block `draw_petal` records when started at position `p` with
heading `θ` and the pen down. -/
def petalCmds (p : Point) (θ : ℚ) (size : ℤ) : List Cmd :=
  [Cmd.penup, Cmd.forward (size : ℚ), Cmd.pendown, Cmd.left 60,
   Cmd.circle (size : ℚ) 120, Cmd.left 120, Cmd.circle (size : ℚ) 120,
   Cmd.penup, Cmd.goto p, Cmd.setheading θ, Cmd.pendown]

/-- Invariant of `draw`'s petal loop: starting with the pen down, folding the
per-index step (absolute `setheading` then `draw_petal`) over any index list
whose headings lie in `[0, 360)` keeps position, pen-down flag, pen style and
visibility, and appends exactly one `setheading`-plus-petal block per index. -/
theorem draw_loop_spec (g : Geom) (size : ℤ) (rot : ℚ) (l : List ℕ) (s : TurtleState)
    (hpen : s.penDown = true)
    (hl : ∀ i ∈ l, 0 ≤ rot * (i : ℚ) ∧ rot * (i : ℚ) < 360) :
    (l.foldl (fun (st : TurtleState) (index : ℕ) =>
        draw_petal g size (setheading (rot * (index : ℚ)) st)) s) =
      { pos := s.pos,
        heading := l.foldl (fun (_ : ℚ) (index : ℕ) => rot * (index : ℚ)) s.heading,
        penDown := true,
        penColor := s.penColor,
        penSize := s.penSize,
        visible := s.visible,
        trace := s.trace ++
          (l.map (fun (i : ℕ) =>
            Cmd.setheading (rot * (i : ℚ)) :: petalCmds s.pos (rot * (i : ℚ)) size)).flatten } := by
  induction l generalizing s with
  | nil =>
    simp [hpen.symm]
  | cons i l ih =>
    have hi := hl i (List.mem_cons_self i l)
    have hnorm : normAngle (rot * (i : ℚ)) = rot * (i : ℚ) :=
      normAngle_eq_self _ hi.1 hi.2
    have hstep : draw_petal g size (setheading (rot * (i : ℚ)) s) =
        { pos := s.pos,
          heading := rot * (i : ℚ),
          penDown := s.penDown,
          penColor := s.penColor,
          penSize := s.penSize,
          visible := s.visible,
          trace := s.trace ++
            (Cmd.setheading (rot * (i : ℚ)) :: petalCmds s.pos (rot * (i : ℚ)) size) } := by
      rw [draw_petal_spec]
      simp [setheading, hnorm, hpen, petalCmds]
    rw [List.foldl_cons, hstep,
      ih _ (by simp [hpen]) (fun j hj => hl j (List.mem_cons_of_mem i hj))]
    simp [hpen.symm]

/-- Full characterisation of `draw` on valid parameters: the exact command
trace and resulting state.  The pose is restored (heading normalised), the
pen colour and width keep the configured values, visibility ends hidden, and
the trace is the prologue, one `setheading`-plus-petal block per index
`0 .. base_elements - 1` at absolute heading `360 / base_elements * index`,
then `hideturtle` and the pose-restoring epilogue. -/
theorem draw_spec (g : Geom) (base_elements size : ℤ) (color : RGBColor)
    (line_width : ℤ) (position : Point) (s : TurtleState)
    (h1 : 3 ≤ base_elements ∧ base_elements ≤ 15)
    (h2 : 1 ≤ line_width ∧ line_width ≤ 5) :
    draw g base_elements size color line_width position s =
      Except.ok
        { pos := s.pos,
          heading := normAngle s.heading,
          penDown := s.penDown,
          penColor := color,
          penSize := line_width,
          visible := false,
          trace := s.trace ++
            [Cmd.penup, Cmd.goto position, Cmd.pendown,
             Cmd.pensize line_width, Cmd.pencolor color] ++
            ((List.range base_elements.toNat).map (fun (i : ℕ) =>
              Cmd.setheading (360 / (base_elements : ℚ) * (i : ℚ)) ::
                petalCmds position (360 / (base_elements : ℚ) * (i : ℚ)) size)).flatten ++
            [Cmd.hideturtle, Cmd.penup, Cmd.goto s.pos, Cmd.setheading s.heading] ++
            (if s.penDown then [Cmd.pendown] else []) } := by
  have hne : (0 : ℚ) < (base_elements : ℚ) := by
    have : (0 : ℤ) < base_elements := by omega
    exact_mod_cast this
  have hrot : ∀ i ∈ List.range base_elements.toNat,
      0 ≤ 360 / (base_elements : ℚ) * (i : ℚ) ∧
        360 / (base_elements : ℚ) * (i : ℚ) < 360 := by
    intro i hi
    have hipos : (0 : ℚ) ≤ (i : ℚ) := by positivity
    have hlt : (i : ℚ) < (base_elements : ℚ) := by
      have := List.mem_range.mp hi
      have : (i : ℤ) < base_elements := by omega
      exact_mod_cast this
    constructor
    · positivity
    · have h360 : 360 / (base_elements : ℚ) * (base_elements : ℚ) = 360 := by
        field_simp
      calc 360 / (base_elements : ℚ) * (i : ℚ)
          < 360 / (base_elements : ℚ) * (base_elements : ℚ) := by
            apply mul_lt_mul_of_pos_left hlt
            positivity
        _ = 360 := h360
  unfold draw
  rw [if_neg (not_not_intro h1), if_neg (not_not_intro h2)]
  have hloop := draw_loop_spec g size (360 / (base_elements : ℚ))
    (List.range base_elements.toNat)
    (pencolor color (pensize line_width (pendown (goto position (penup s)))))
    (by simp [penup, goto, pendown, pensize, pencolor]) hrot
  simp only [penup, goto, pendown, pensize, pencolor] at hloop
  simp only [penup, goto, pendown, pensize, pencolor]
  rw [hloop]
  cases hpd : s.penDown <;>
    simp [hideturtle, penup, goto, setheading, pendown, hpd]

/-- A concrete geometry used to instantiate the geometry-generic theorems on
concrete inputs (the theorems hold for every `Geom`). -/
def constGeom : Geom where
  fwd := fun p _ _ => p
  arc := fun p _ _ _ => p

/-- The observable state of a freshly created turtle: at the origin, heading
east (0 degrees), pen down, default style, visible, nothing drawn yet. -/
def initState : TurtleState where
  pos := (0, 0)
  heading := 0
  penDown := true
  penColor := (0, 0, 0)
  penSize := 1
  visible := true
  trace := []

/-- C1: for every valid configuration (`base_elements ∈ [3,15]`,
`line_width ∈ [1,5]`, `size > 0`) and every observable starting pose, `draw`
returns successfully and the surface's position, heading and pen-down state
each equal their values immediately before the call: the draw operation is
pose-neutral from the caller's perspective. -/
theorem draw_pose_neutral (g : Geom) (base_elements size : ℤ) (color : RGBColor)
    (line_width : ℤ) (position : Point) (s : TurtleState)
    (h1 : 3 ≤ base_elements) (h2 : base_elements ≤ 15)
    (h3 : 1 ≤ line_width) (h4 : line_width ≤ 5) (_h5 : 0 < size)
    (hh0 : 0 ≤ s.heading) (hh1 : s.heading < 360) :
    ∃ s', draw g base_elements size color line_width position s = Except.ok s' ∧
      s'.pos = s.pos ∧ s'.heading = s.heading ∧ s'.penDown = s.penDown := by
  refine ⟨_, draw_spec g base_elements size color line_width position s
    ⟨h1, h2⟩ ⟨h3, h4⟩, ?_, ?_, ?_⟩ <;>
    simp [normAngle_eq_self s.heading hh0 hh1]

/-- Witness for C1 at `base_elements = 7`, `size = 120`, `line_width = 2`,
starting from the fresh-turtle state. -/
theorem draw_pose_neutral_witness :
    ((3:ℤ) ≤ 7 ∧ (7:ℤ) ≤ 15 ∧ (1:ℤ) ≤ 2 ∧ (2:ℤ) ≤ 5 ∧ (0:ℤ) < 120 ∧
      0 ≤ initState.heading ∧ initState.heading < 360) ∧
    ∃ s', draw constGeom 7 120 (0, 120, 255) 2 (-260, 60) initState = Except.ok s' ∧
      s'.pos = initState.pos ∧ s'.heading = initState.heading ∧
      s'.penDown = initState.penDown :=
  ⟨⟨by norm_num, by norm_num, by norm_num, by norm_num, by norm_num,
    by simp [initState], by simp [initState]⟩,
   draw_pose_neutral constGeom 7 120 (0, 120, 255) 2 (-260, 60) initState
     (by norm_num) (by norm_num) (by norm_num) (by norm_num) (by norm_num)
     (by simp [initState]) (by simp [initState])⟩

/-- C2: for every configuration with `base_elements` outside `[3,15]` or
`line_width` outside `[1,5]`, `draw` raises `ValueError` before any surface
mutation: the error carries the surface state exactly as it was at entry
(same trace, hence zero strokes). -/
theorem draw_invalid_rejected (g : Geom) (base_elements size : ℤ) (color : RGBColor)
    (line_width : ℤ) (position : Point) (s : TurtleState)
    (h : ¬ (3 ≤ base_elements ∧ base_elements ≤ 15) ∨
         ¬ (1 ≤ line_width ∧ line_width ≤ 5)) :
    ∃ msg, draw g base_elements size color line_width position s =
      Except.error (msg, s) := by
  unfold draw
  by_cases hb : 3 ≤ base_elements ∧ base_elements ≤ 15
  · have hlw : ¬ (1 ≤ line_width ∧ line_width ≤ 5) := by tauto
    exact ⟨_, by rw [if_neg (not_not_intro hb), if_pos hlw]⟩
  · exact ⟨_, by rw [if_pos hb]⟩

/-- Witness for C2 at the out-of-range petal count `base_elements = 16`. -/
theorem draw_invalid_rejected_witness :
    (¬ ((3:ℤ) ≤ 16 ∧ (16:ℤ) ≤ 15) ∨ ¬ ((1:ℤ) ≤ 2 ∧ (2:ℤ) ≤ 5)) ∧
    ∃ msg, draw constGeom 16 120 (0, 120, 255) 2 (0, 0) initState =
      Except.error (msg, initState) :=
  ⟨by norm_num,
   draw_invalid_rejected constGeom 16 120 (0, 120, 255) 2 (0, 0) initState
     (by norm_num)⟩

/-- C5: for every valid configuration, `draw` places exactly
`base_elements` petals, one `setheading`-plus-petal block per index
`0 .. base_elements - 1`, each at the absolute heading
`(360 / base_elements) * index` set via absolute heading assignment (the
recorded command is `setheading`, not a relative turn). -/
theorem draw_absolute_petal_headings (g : Geom) (base_elements size : ℤ)
    (color : RGBColor) (line_width : ℤ) (position : Point) (s : TurtleState)
    (h1 : 3 ≤ base_elements ∧ base_elements ≤ 15)
    (h2 : 1 ≤ line_width ∧ line_width ≤ 5) :
    ∃ s', draw g base_elements size color line_width position s = Except.ok s' ∧
      s'.trace = s.trace ++
        [Cmd.penup, Cmd.goto position, Cmd.pendown,
         Cmd.pensize line_width, Cmd.pencolor color] ++
        ((List.range base_elements.toNat).map (fun (i : ℕ) =>
          Cmd.setheading (360 / (base_elements : ℚ) * (i : ℚ)) ::
            petalCmds position (360 / (base_elements : ℚ) * (i : ℚ)) size)).flatten ++
        [Cmd.hideturtle, Cmd.penup, Cmd.goto s.pos, Cmd.setheading s.heading] ++
        (if s.penDown then [Cmd.pendown] else []) ∧
      ((List.range base_elements.toNat).map (fun (i : ℕ) =>
        Cmd.setheading (360 / (base_elements : ℚ) * (i : ℚ)) ::
          petalCmds position (360 / (base_elements : ℚ) * (i : ℚ)) size)).length =
        base_elements.toNat :=
  ⟨_, draw_spec g base_elements size color line_width position s h1 h2,
   by simp, by simp⟩

/-- Witness for C5 at `base_elements = 3`, `size = 160`: three petal blocks at
the absolute headings 0, 120, 240 degrees. -/
theorem draw_absolute_petal_headings_witness :
    (((3:ℤ) ≤ 3 ∧ (3:ℤ) ≤ 15) ∧ ((1:ℤ) ≤ 2 ∧ (2:ℤ) ≤ 5)) ∧
    ((List.range (3:ℤ).toNat).map (fun (i : ℕ) =>
      (360 / ((3:ℤ) : ℚ) * (i : ℚ)))) = [0, 120, 240] ∧
    ∃ s', draw constGeom 3 160 (60, 200, 120) 2 (260, 80) initState = Except.ok s' ∧
      s'.trace = initState.trace ++
        [Cmd.penup, Cmd.goto (260, 80), Cmd.pendown,
         Cmd.pensize 2, Cmd.pencolor (60, 200, 120)] ++
        ((List.range (3:ℤ).toNat).map (fun (i : ℕ) =>
          Cmd.setheading (360 / ((3:ℤ) : ℚ) * (i : ℚ)) ::
            petalCmds (260, 80) (360 / ((3:ℤ) : ℚ) * (i : ℚ)) 160)).flatten ++
        [Cmd.hideturtle, Cmd.penup, Cmd.goto initState.pos,
         Cmd.setheading initState.heading] ++
        (if initState.penDown then [Cmd.pendown] else []) ∧
      ((List.range (3:ℤ).toNat).map (fun (i : ℕ) =>
        Cmd.setheading (360 / ((3:ℤ) : ℚ) * (i : ℚ)) ::
          petalCmds (260, 80) (360 / ((3:ℤ) : ℚ) * (i : ℚ)) 160)).length =
        (3:ℤ).toNat :=
  ⟨⟨⟨by norm_num, by norm_num⟩, ⟨by norm_num, by norm_num⟩⟩,
   by simp [List.range_succ]; norm_num,
   (draw_absolute_petal_headings constGeom 3 160 (60, 200, 120) 2 (260, 80)
     initState ⟨by norm_num, by norm_num⟩ ⟨by norm_num, by norm_num⟩ :)⟩

/-- C6: for every `size > 0`, `draw_petal` issues exactly this command
sequence from the current pose: advance `size` with the pen up, lower the
pen, turn left 60 degrees, draw an arc of radius `size` with sweep 120
degrees, turn left 120 degrees, draw a second arc of radius `size` with sweep
120 degrees — followed only by its own pose-restoring commands. -/
theorem draw_petal_command_sequence (g : Geom) (size : ℤ) (s : TurtleState)
    (_h : 0 < size) :
    (draw_petal g size s).trace = s.trace ++
      [Cmd.penup, Cmd.forward (size : ℚ), Cmd.pendown, Cmd.left 60,
       Cmd.circle (size : ℚ) 120, Cmd.left 120, Cmd.circle (size : ℚ) 120] ++
      ([Cmd.penup, Cmd.goto s.pos, Cmd.setheading s.heading] ++
        (if s.penDown then [Cmd.pendown] else [])) := by
  rw [draw_petal_spec]
  simp

/-- Witness for C6 at `size = 160` from the fresh-turtle state. -/
theorem draw_petal_command_sequence_witness :
    (0:ℤ) < 160 ∧
    (draw_petal constGeom 160 initState).trace = initState.trace ++
      [Cmd.penup, Cmd.forward ((160:ℤ) : ℚ), Cmd.pendown, Cmd.left 60,
       Cmd.circle ((160:ℤ) : ℚ) 120, Cmd.left 120, Cmd.circle ((160:ℤ) : ℚ) 120] ++
      ([Cmd.penup, Cmd.goto initState.pos, Cmd.setheading initState.heading] ++
        (if initState.penDown then [Cmd.pendown] else [])) :=
  ⟨by norm_num, draw_petal_command_sequence constGeom 160 initState (by norm_num)⟩

/-- C7: for every `size > 0` and every observable starting pose, `draw_petal`
is pose-neutral: position, heading and pen-down state after the call equal
their values before it. -/
theorem draw_petal_pose_neutral (g : Geom) (size : ℤ) (s : TurtleState)
    (_h : 0 < size) (hh0 : 0 ≤ s.heading) (hh1 : s.heading < 360) :
    (draw_petal g size s).pos = s.pos ∧
      (draw_petal g size s).heading = s.heading ∧
      (draw_petal g size s).penDown = s.penDown := by
  rw [draw_petal_spec]
  simp [normAngle_eq_self s.heading hh0 hh1]

/-- Witness for C7 at `size = 120` from the fresh-turtle state. -/
theorem draw_petal_pose_neutral_witness :
    ((0:ℤ) < 120 ∧ 0 ≤ initState.heading ∧ initState.heading < 360) ∧
    ((draw_petal constGeom 120 initState).pos = initState.pos ∧
      (draw_petal constGeom 120 initState).heading = initState.heading ∧
      (draw_petal constGeom 120 initState).penDown = initState.penDown) :=
  ⟨⟨by norm_num, by simp [initState], by simp [initState]⟩,
   draw_petal_pose_neutral constGeom 120 initState (by norm_num)
     (by simp [initState]) (by simp [initState])⟩

/-- C8: for every valid configuration, after `draw` returns the surface's pen
colour equals `color` and its pen width equals `line_width`: unlike the pose,
the pen style set during drawing is not restored to its pre-call values. -/
theorem draw_pen_style_persists (g : Geom) (base_elements size : ℤ)
    (color : RGBColor) (line_width : ℤ) (position : Point) (s : TurtleState)
    (h1 : 3 ≤ base_elements) (h2 : base_elements ≤ 15)
    (h3 : 1 ≤ line_width) (h4 : line_width ≤ 5) (_h5 : 0 < size) :
    ∃ s', draw g base_elements size color line_width position s = Except.ok s' ∧
      s'.penColor = color ∧ s'.penSize = line_width := by
  exact ⟨_, draw_spec g base_elements size color line_width position s
    ⟨h1, h2⟩ ⟨h3, h4⟩, rfl, rfl⟩

/-- Witness for C8: the pen style differs from the entry style after the
call (entry style is black width 1, configured style is orange width 3). -/
theorem draw_pen_style_persists_witness :
    ((3:ℤ) ≤ 10 ∧ (10:ℤ) ≤ 15 ∧ (1:ℤ) ≤ 3 ∧ (3:ℤ) ≤ 5 ∧ (0:ℤ) < 110) ∧
    ∃ s', draw constGeom 10 110 (255, 105, 0) 3 (0, -20) initState = Except.ok s' ∧
      s'.penColor = (255, 105, 0) ∧ s'.penSize = 3 :=
  ⟨⟨by norm_num, by norm_num, by norm_num, by norm_num, by norm_num⟩,
   draw_pen_style_persists constGeom 10 110 (255, 105, 0) 3 (0, -20) initState
     (by norm_num) (by norm_num) (by norm_num) (by norm_num) (by norm_num)⟩

/-- C10: for every valid configuration, `draw` hides the turtle before
restoring the pose and never restores visibility: on return the surface is
hidden even when it was visible on entry (and `initState` is visible). -/
theorem draw_hides_turtle (g : Geom) (base_elements size : ℤ)
    (color : RGBColor) (line_width : ℤ) (position : Point) (s : TurtleState)
    (h1 : 3 ≤ base_elements) (h2 : base_elements ≤ 15)
    (h3 : 1 ≤ line_width) (h4 : line_width ≤ 5) (_h5 : 0 < size) :
    ∃ s', draw g base_elements size color line_width position s = Except.ok s' ∧
      s'.visible = false := by
  exact ⟨_, draw_spec g base_elements size color line_width position s
    ⟨h1, h2⟩ ⟨h3, h4⟩, rfl⟩

/-- Witness for C10: starting from the visible fresh-turtle state, the turtle
is hidden on return. -/
theorem draw_hides_turtle_witness :
    ((3:ℤ) ≤ 7 ∧ (7:ℤ) ≤ 15 ∧ (1:ℤ) ≤ 2 ∧ (2:ℤ) ≤ 5 ∧ (0:ℤ) < 140 ∧
      initState.visible = true) ∧
    ∃ s', draw constGeom 7 140 (0, 120, 255) 2 (-260, 60) initState = Except.ok s' ∧
      s'.visible = false :=
  ⟨⟨by norm_num, by norm_num, by norm_num, by norm_num, by norm_num, rfl⟩,
   draw_hides_turtle constGeom 7 140 (0, 120, 255) 2 (-260, 60) initState
     (by norm_num) (by norm_num) (by norm_num) (by norm_num) (by norm_num)⟩

/-- Each `randint a b` draw lies in `[a, b]` whenever `a ≤ b`. -/
theorem randint_mem (a b : ℤ) (r : RNG) (h : a ≤ b) :
    a ≤ (RNG.randint a b r).1 ∧ (RNG.randint a b r).1 ≤ b := by
  have h0 : (0:ℤ) ≤ (r.stream r.cursor : ℤ) % (b - a + 1) :=
    Int.emod_nonneg _ (by omega)
  have h1 : (r.stream r.cursor : ℤ) % (b - a + 1) < b - a + 1 :=
    Int.emod_lt_of_pos _ (by omega)
  simp only [RNG.randint]
  omega

/-- C3: for every random source, the sampled parameters satisfy every domain
constraint: `base_elements ∈ [3,15]`, `size ∈ [80,180]`, each colour channel
in `[0,255]`, `line_width ∈ [1,5]`, and the centre obeys the canvas clamp
`|x| ≤ max (450 - size) 0` and `|y| ≤ max (300 - size) 0` for the half
extents `(450, 300)` (the bound degenerating to `0` on an axis whose half
extent is below `size`). -/
theorem generate_parameters_in_range (rng : RNG) :
    3 ≤ (generate_parameters rng).1.base_elements ∧
    (generate_parameters rng).1.base_elements ≤ 15 ∧
    80 ≤ (generate_parameters rng).1.size ∧
    (generate_parameters rng).1.size ≤ 180 ∧
    0 ≤ (generate_parameters rng).1.color.1 ∧
    (generate_parameters rng).1.color.1 ≤ 255 ∧
    0 ≤ (generate_parameters rng).1.color.2.1 ∧
    (generate_parameters rng).1.color.2.1 ≤ 255 ∧
    0 ≤ (generate_parameters rng).1.color.2.2 ∧
    (generate_parameters rng).1.color.2.2 ≤ 255 ∧
    1 ≤ (generate_parameters rng).1.line_width ∧
    (generate_parameters rng).1.line_width ≤ 5 ∧
    |(generate_parameters rng).1.position.1| ≤
      max (POSITION_LIMIT_X - (generate_parameters rng).1.size) 0 ∧
    |(generate_parameters rng).1.position.2| ≤
      max (POSITION_LIMIT_Y - (generate_parameters rng).1.size) 0 := by
  obtain ⟨f, c⟩ := rng
  simp only [generate_parameters, RNG.randint, BASE_ELEMENTS_RANGE,
    SIZE_RANGE, LINE_WIDTH_RANGE, POSITION_LIMIT_X, POSITION_LIMIT_Y]
  norm_num
  have hm1a : (0:ℤ) ≤ (f (c + 1) : ℤ) % 101 := Int.emod_nonneg _ (by norm_num)
  have hm1b : (f (c + 1) : ℤ) % 101 < 101 := Int.emod_lt_of_pos _ (by norm_num)
  have hx : (450 - (80 + (f (c + 1) : ℤ) % 101)) ⊔ 0 =
      450 - (80 + (f (c + 1) : ℤ) % 101) := max_eq_left (by omega)
  have hy : (300 - (80 + (f (c + 1) : ℤ) % 101)) ⊔ 0 =
      300 - (80 + (f (c + 1) : ℤ) % 101) := max_eq_left (by omega)
  rw [hx, hy]
  have h6a : (0:ℤ) ≤ (f (c + 1 + 1 + 1 + 1 + 1 + 1) : ℤ) %
      (450 - (80 + (f (c + 1) : ℤ) % 101) + (450 - (80 + (f (c + 1) : ℤ) % 101)) + 1) :=
    Int.emod_nonneg _ (by omega)
  have h6b : (f (c + 1 + 1 + 1 + 1 + 1 + 1) : ℤ) %
      (450 - (80 + (f (c + 1) : ℤ) % 101) + (450 - (80 + (f (c + 1) : ℤ) % 101)) + 1) <
      450 - (80 + (f (c + 1) : ℤ) % 101) + (450 - (80 + (f (c + 1) : ℤ) % 101)) + 1 :=
    Int.emod_lt_of_pos _ (by omega)
  have h7a : (0:ℤ) ≤ (f (c + 1 + 1 + 1 + 1 + 1 + 1 + 1) : ℤ) %
      (300 - (80 + (f (c + 1) : ℤ) % 101) + (300 - (80 + (f (c + 1) : ℤ) % 101)) + 1) :=
    Int.emod_nonneg _ (by omega)
  have h7b : (f (c + 1 + 1 + 1 + 1 + 1 + 1 + 1) : ℤ) %
      (300 - (80 + (f (c + 1) : ℤ) % 101) + (300 - (80 + (f (c + 1) : ℤ) % 101)) + 1) <
      300 - (80 + (f (c + 1) : ℤ) % 101) + (300 - (80 + (f (c + 1) : ℤ) % 101)) + 1 :=
    Int.emod_lt_of_pos _ (by omega)
  generalize h6 : (f (c + 1 + 1 + 1 + 1 + 1 + 1) : ℤ) %
      (450 - (80 + (f (c + 1) : ℤ) % 101) + (450 - (80 + (f (c + 1) : ℤ) % 101)) + 1) = x6
    at h6a h6b ⊢
  generalize h7 : (f (c + 1 + 1 + 1 + 1 + 1 + 1 + 1) : ℤ) %
      (300 - (80 + (f (c + 1) : ℤ) % 101) + (300 - (80 + (f (c + 1) : ℤ) % 101)) + 1) = x7
    at h7a h7b ⊢
  refine ⟨by omega, by omega, by omega, by omega, by omega, by omega, by omega,
    by omega, by omega, by omega, by omega, by omega,
    Or.inl (by rw [abs_le]; omega), Or.inl (by rw [abs_le]; omega)⟩

/-- `randint` is a function of the observable stream only: observably
equivalent generators draw the same value and stay observably equivalent. -/
theorem randint_congr (a b : ℤ) (r₁ r₂ : RNG) (h : RNG.EquivFrom r₁ r₂) :
    (RNG.randint a b r₁).1 = (RNG.randint a b r₂).1 ∧
      RNG.EquivFrom (RNG.randint a b r₁).2 (RNG.randint a b r₂).2 := by
  constructor
  · have h0 := h 0
    simp only [Nat.add_zero] at h0
    simp [RNG.randint, h0]
  · intro n
    simp only [RNG.randint]
    have e₁ : r₁.cursor + 1 + n = r₁.cursor + (1 + n) := by omega
    have e₂ : r₂.cursor + 1 + n = r₂.cursor + (1 + n) := by omega
    rw [e₁, e₂]
    exact h (1 + n)

/-- `generate_parameters` is a function of the observable stream only. -/
theorem generate_parameters_congr (r₁ r₂ : RNG) (h : RNG.EquivFrom r₁ r₂) :
    (generate_parameters r₁).1 = (generate_parameters r₂).1 ∧
      RNG.EquivFrom (generate_parameters r₁).2 (generate_parameters r₂).2 := by
  obtain ⟨f₁, c₁⟩ := r₁
  obtain ⟨f₂, c₂⟩ := r₂
  have h' : ∀ n : ℕ, f₁ (c₁ + n) = f₂ (c₂ + n) := h
  have k0 : f₁ c₁ = f₂ c₂ := by simpa using h' 0
  have k1 : f₁ (c₁ + 1) = f₂ (c₂ + 1) := h' 1
  have k2 : f₁ (c₁ + 1 + 1) = f₂ (c₂ + 1 + 1) := h' 2
  have k3 : f₁ (c₁ + 1 + 1 + 1) = f₂ (c₂ + 1 + 1 + 1) := h' 3
  have k4 : f₁ (c₁ + 1 + 1 + 1 + 1) = f₂ (c₂ + 1 + 1 + 1 + 1) := h' 4
  have k5 : f₁ (c₁ + 1 + 1 + 1 + 1 + 1) = f₂ (c₂ + 1 + 1 + 1 + 1 + 1) := h' 5
  have k6 : f₁ (c₁ + 1 + 1 + 1 + 1 + 1 + 1) = f₂ (c₂ + 1 + 1 + 1 + 1 + 1 + 1) := h' 6
  have k7 : f₁ (c₁ + 1 + 1 + 1 + 1 + 1 + 1 + 1) =
      f₂ (c₂ + 1 + 1 + 1 + 1 + 1 + 1 + 1) := h' 7
  constructor
  · simp only [generate_parameters, RNG.randint]
    rw [k0, k1, k2, k3, k4, k5, k6, k7]
  · intro n
    simp only [generate_parameters, RNG.randint]
    have e₁ : c₁ + 1 + 1 + 1 + 1 + 1 + 1 + 1 + 1 + n = c₁ + (8 + n) := by omega
    have e₂ : c₂ + 1 + 1 + 1 + 1 + 1 + 1 + 1 + 1 + n = c₂ + (8 + n) := by omega
    rw [e₁, e₂]
    exact h' (8 + n)

/-- Unfolding of one step of the batch sampling sequence. -/
theorem sampleSeq_succ (rng : RNG) (n : ℕ) :
    sampleSeq rng (n + 1) =
      (generate_parameters rng).1 :: sampleSeq (generate_parameters rng).2 n := rfl

/-- C4: sampling is a deterministic function of the seeded random source with
no hidden state: two batch runs of any length driven by observably identical
random sources (in particular, two sources seeded with the same seed) produce
identical sequences of sampled composition parameters. -/
theorem sampleSeq_deterministic (count : ℕ) (r₁ r₂ : RNG)
    (h : RNG.EquivFrom r₁ r₂) :
    sampleSeq r₁ count = sampleSeq r₂ count := by
  induction count generalizing r₁ r₂ with
  | zero => rfl
  | succ n ih =>
    obtain ⟨hv, hr⟩ := generate_parameters_congr r₁ r₂ h
    rw [sampleSeq_succ, sampleSeq_succ, hv, ih _ _ hr]

/-- A concrete random source. -/
def rngA : RNG := ⟨fun n => n, 2⟩

/-- A second concrete random source, observably identical to `rngA` though
represented differently. -/
def rngB : RNG := ⟨fun n => n + 2, 0⟩

/-- Witness for C4 at `count = 5` on two observably identical sources. -/
theorem sampleSeq_deterministic_witness :
    RNG.EquivFrom rngA rngB ∧ sampleSeq rngA 5 = sampleSeq rngB 5 :=
  ⟨by intro n; simp [rngA, rngB, RNG.EquivFrom]; omega,
   sampleSeq_deterministic 5 rngA rngB
     (by intro n; simp [rngA, rngB, RNG.EquivFrom]; omega)⟩

/-- C9: `ensure_colormode_255` is idempotent: `n + 1` calls from any state
equal a single call (every call after the first is a no-op leaving the
configuration unchanged), and a call from an uninitialised state establishes
colour mode 255 and records the initialisation. -/
theorem ensure_colormode_255_idempotent (s : ProcState) (n : ℕ) :
    ensure_colormode_255^[n + 1] s = ensure_colormode_255 s ∧
      (¬ s.colorModeSet →
        (ensure_colormode_255 s).colormode = 255 ∧
        (ensure_colormode_255 s).colorModeSet = true) := by
  constructor
  · induction n with
    | zero => rfl
    | succ m ih =>
      rw [Function.iterate_succ_apply', ih]
      by_cases hs : s.colorModeSet <;>
        simp [ensure_colormode_255, hs, COLOR_MODE]
  · intro hs
    simp [ensure_colormode_255, hs, COLOR_MODE]

/-- Witness for C9: three calls from the fresh process state equal one call,
which sets mode 255 and the flag. -/
theorem ensure_colormode_255_idempotent_witness :
    ensure_colormode_255^[3] ⟨false, 1⟩ = ensure_colormode_255 ⟨false, 1⟩ ∧
      (¬ (⟨false, 1⟩ : ProcState).colorModeSet →
        (ensure_colormode_255 ⟨false, 1⟩).colormode = 255 ∧
        (ensure_colormode_255 ⟨false, 1⟩).colorModeSet = true) :=
  ensure_colormode_255_idempotent ⟨false, 1⟩ 2

end Rosette
